import Mathlib

/-!
Verification development for the faststream publish / request-reply pipeline
(`faststream/rabbit/publisher/usecase.py`) and the Redis stream-subscription
descriptor (`faststream/redis/schemas/stream_sub.py`).

The Python source is shallowly embedded: Python keyword dictionaries become
association lists with later-binding-wins lookup, Python truthiness on
optional strings and descriptors is made explicit, and the publisher's
`publish` / `request` entry points become pure functions computing the
keyword bag handed to the producer, with the unconfigured state reported
through `Except`.
-/

set_option autoImplicit false

/-- Right-biased choice on options: the first argument wins when present.
Used to phrase later-layer-wins dictionary semantics. -/
def optOr {α : Type} (a b : Option α) : Option α :=
  match a with
  | some v => some v
  | none => b

/-- Lookup in a Python dict literal built from the entries in order:
a later duplicate key overwrites an earlier one, so the LAST binding wins. -/
def dictGet {α : Type} : List (String × α) → String → Option α
  | [], _ => none
  | kv :: rest, k => optOr (dictGet rest k) (if kv.1 = k then some kv.2 else none)

/-- Python `a or b` on strings: the empty string is falsy. -/
def pyOrS (a b : String) : String :=
  if a = "" then b else a

/-- Python `a or b` where `a : Optional[str]`: both `None` and `""` are falsy. -/
def pyOrOpt (a : Option String) (b : String) : String :=
  match a with
  | none => b
  | some s => if s = "" then b else s

/-- Modelled from the spec: the destination descriptor (`RabbitQueue`, consumed
from `faststream.rabbit.schemas`, not part of the analysed source).  Per the
spec it is a normalized reference to a named target with a derivable routing
string. -/
structure RabbitQueue where
  name : String
  deriving DecidableEq

/-- Modelled from the spec: the descriptor's derived routing string
(`descriptor.routing -> string`), derived from its name. -/
def RabbitQueue.routing (q : RabbitQueue) : String :=
  q.name

/-- A per-call destination argument: either a raw name or a full descriptor
(the Python parameter has type `Union[RabbitQueue, str, None]`). -/
inductive QueueRef where
  | byName (s : String)
  | byQueue (q : RabbitQueue)
  deriving DecidableEq

/-- Modelled from the spec: `RabbitQueue.validate(nameOrDescriptor)`, the
descriptor's normalization entry point accepting a raw name or a descriptor. -/
def RabbitQueue.validate : QueueRef → RabbitQueue
  | .byName s => ⟨s⟩
  | .byQueue q => q

/-- Python truthiness of a `Union[RabbitQueue, str]` value: an empty string is
falsy, a descriptor object is truthy. -/
def queueTruthy : QueueRef → Bool
  | .byName s => s != ""
  | .byQueue _ => true

/-- Python `queue or self.queue` for the per-call destination override. -/
def pyOrQ (q : Option QueueRef) (d : RabbitQueue) : QueueRef :=
  match q with
  | none => .byQueue d
  | some r => if queueTruthy r then r else .byQueue d

/-- Modelled from the spec: the exchange descriptor (`RabbitExchange`,
consumed, not part of the analysed source): a named target. -/
structure RabbitExchange where
  name : String
  deriving DecidableEq

/-- A per-call exchange argument (`Union[RabbitExchange, str, None]`). -/
inductive ExchangeRef where
  | byName (s : String)
  | byExchange (e : RabbitExchange)
  deriving DecidableEq

/-- Python truthiness of a `Union[RabbitExchange, str]` value. -/
def exchangeTruthy : ExchangeRef → Bool
  | .byName s => s != ""
  | .byExchange _ => true

/-- Python `exchange or self.exchange.name` from the kwargs dict: the per-call
value is forwarded as given when truthy, otherwise the bound exchange's name. -/
def pyOrE (e : Option ExchangeRef) (d : RabbitExchange) : ExchangeRef :=
  match e with
  | none => .byName d.name
  | some r => if exchangeTruthy r then r else .byName d.name

/-- Modelled from the spec: `gen_cor_id()` generates a fresh correlation id,
unique per call (the spec requires it non-empty and unique); the freshness
source is made explicit as a call counter. -/
def genCorId (n : Nat) : String :=
  "cor-" ++ Nat.repr n

/-- Modelled from the spec: the parsed-message source-type tag
(Request | Response); the reply path tags messages `Response`. -/
inductive SourceType where
  | Request
  | Response
  deriving DecidableEq

/-- The option keys admitted by the `RequestPublishKwargs` typed dict
(source lines 38-98). -/
def requestOptionKeys : List String :=
  ["headers", "mandatory", "immediate", "timeout", "persist", "priority",
   "message_type", "content_type", "user_id", "expiration", "content_encoding"]

/-- The option keys admitted by the `PublishKwargs` typed dict
(source lines 101-109): the request keys plus `reply_to`. -/
def publishOptionKeys : List String :=
  requestOptionKeys ++ ["reply_to"]

/-- An association list draws its keys from an allowed key set; this is the
constraint the `TypedDict` annotations place on the option bags. -/
abbrev optionsWF {α : Type} (l : List (String × α)) (allowed : List String) : Prop :=
  ∀ k ∈ l.map Prod.fst, k ∈ allowed

/-- Values appearing in the kwargs dict handed to the producer.  Fixed keys
carry structured values; option-bag entries carry opaque option values. -/
inductive PyVal (α : Type) where
  | str (s : String)
  | ostr (o : Option String)
  | exch (e : ExchangeRef)
  | onat (o : Option Nat)
  | bool (b : Bool)
  | orat (o : Option Rat)
  | opt (a : α)
  | oopt (o : Option α)
  deriving DecidableEq

/-- An opaque handle standing for the `AioPikaFastProducer` object held in
`self._producer`; only its presence matters to the facade's guard. -/
inductive ProducerHandle where
  | mk
  deriving DecidableEq

/-- The publisher facade state (`LogicPublisher`), with the fields written by
`__init__` (lines 122-160) and `setup` (lines 162-172).  `α` is the type of
stored option values. -/
structure LogicPublisher (α : Type) where
  routing_key : String
  queue : RabbitQueue
  exchange : RabbitExchange
  reply_to : Option α
  message_kwargs : List (String × α)
  app_id : Option String
  virtual_host : String
  _producer : Option ProducerHandle
  deriving DecidableEq

/-- `LogicPublisher.__init__` (lines 122-160): stores the routing key, queue
and exchange, pops `reply_to` out of the stored message options, and leaves
the producer handle absent until `setup`. -/
def LogicPublisher.make {α : Type} (routing_key : String) (queue : RabbitQueue)
    (exchange : RabbitExchange) (message_kwargs : List (String × α)) :
    LogicPublisher α :=
  { routing_key := routing_key
    queue := queue
    exchange := exchange
    reply_to := dictGet message_kwargs "reply_to"
    message_kwargs := message_kwargs.filter (fun kv => kv.1 != "reply_to")
    app_id := none
    virtual_host := ""
    _producer := none }

/-- `LogicPublisher.setup` (lines 162-172): stores the app id and virtual
host; the producer handle is stored by the superclass call, modelled from the
spec ("idempotent re-calls overwrite state").  The producer parameter is
`Optional` in the source signature. -/
def LogicPublisher.setup {α : Type} (p : LogicPublisher α)
    (producer : Option ProducerHandle) (app_id : Option String)
    (virtual_host : String) : LogicPublisher α :=
  { p with app_id := app_id, virtual_host := virtual_host, _producer := producer }

/-- The per-call arguments of `publish` (signature lines 184-256). -/
structure PublishArgs (α : Type) where
  queue : Option QueueRef
  exchange : Option ExchangeRef
  routing_key : String
  correlation_id : Option String
  message_id : Option String
  timestamp : Option Nat
  rpc : Bool
  rpc_timeout : Option Rat
  raise_timeout : Bool
  kwargs : List (String × α)
  deriving DecidableEq

/-- The per-call arguments of `request` (signature lines 291-332). -/
structure RequestArgs (α : Type) where
  queue : Option QueueRef
  exchange : Option ExchangeRef
  routing_key : String
  correlation_id : Option String
  message_id : Option String
  timestamp : Option Nat
  kwargs : List (String × α)
  deriving DecidableEq

/-- The routing-key expression shared by `publish` (lines 261-263) and
`request` (lines 337-339):
`routing_key or self.routing_key or RabbitQueue.validate(queue or self.queue).routing`. -/
def resolvedRoutingKey (callRk pubRk : String) (callQ : Option QueueRef)
    (pubQ : RabbitQueue) : String :=
  pyOrS callRk (pyOrS pubRk (RabbitQueue.validate (pyOrQ callQ pubQ)).routing)

/-- The fixed entries of the kwargs dict built by `publish` (lines 260-273). -/
def publishKwargsFixed {α : Type} (p : LogicPublisher α) (a : PublishArgs α)
    (genId : String) : List (String × PyVal α) :=
  [("routing_key", .str (resolvedRoutingKey a.routing_key p.routing_key a.queue p.queue)),
   ("exchange", .exch (pyOrE a.exchange p.exchange)),
   ("app_id", .ostr p.app_id),
   ("correlation_id", .str (pyOrOpt a.correlation_id genId)),
   ("message_id", .ostr a.message_id),
   ("timestamp", .onat a.timestamp),
   ("rpc", .bool a.rpc),
   ("rpc_timeout", .orat a.rpc_timeout),
   ("raise_timeout", .bool a.raise_timeout),
   ("reply_to", .oopt p.reply_to)]

/-- The full kwargs dict built by `publish` (lines 260-276): the fixed
entries, then the stored message options, then the per-call options, with
later entries overwriting earlier ones on key collision.  The fresh
correlation id produced by `gen_cor_id()` is an explicit argument. -/
def publishKwargs {α : Type} (p : LogicPublisher α) (a : PublishArgs α)
    (genId : String) : List (String × PyVal α) :=
  publishKwargsFixed p a genId
    ++ p.message_kwargs.map (fun kv => (kv.1, PyVal.opt kv.2))
    ++ a.kwargs.map (fun kv => (kv.1, PyVal.opt kv.2))

/-- The fixed entries of the kwargs dict built by `request` (lines 336-345):
no rpc compatibility fields and no `reply_to` entry. -/
def requestKwargsFixed {α : Type} (p : LogicPublisher α) (a : RequestArgs α)
    (genId : String) : List (String × PyVal α) :=
  [("routing_key", .str (resolvedRoutingKey a.routing_key p.routing_key a.queue p.queue)),
   ("exchange", .exch (pyOrE a.exchange p.exchange)),
   ("app_id", .ostr p.app_id),
   ("correlation_id", .str (pyOrOpt a.correlation_id genId)),
   ("message_id", .ostr a.message_id),
   ("timestamp", .onat a.timestamp)]

/-- The full kwargs dict built by `request` (lines 336-348). -/
def requestKwargs {α : Type} (p : LogicPublisher α) (a : RequestArgs α)
    (genId : String) : List (String × PyVal α) :=
  requestKwargsFixed p a genId
    ++ p.message_kwargs.map (fun kv => (kv.1, PyVal.opt kv.2))
    ++ a.kwargs.map (fun kv => (kv.1, PyVal.opt kv.2))

/-- The error raised by the facade's precondition guard:
`assert self._producer, NOT_CONNECTED_YET` (lines 258 and 334). -/
inductive PubError where
  | notConnected
  deriving DecidableEq

/-- `LogicPublisher.publish` up to the producer call (lines 184-289): fails
with NotConnected while the producer handle is absent, otherwise delivers the
assembled kwargs dict to the producer. -/
def LogicPublisher.publish {α : Type} (p : LogicPublisher α) (a : PublishArgs α)
    (genId : String) : Except PubError (List (String × PyVal α)) :=
  match p._producer with
  | none => .error .notConnected
  | some _ => .ok (publishKwargs p a genId)

/-- `LogicPublisher.request` up to the producer call (lines 291-348): the
same guard and kwargs assembly as `publish`, restricted to request options. -/
def LogicPublisher.request {α : Type} (p : LogicPublisher α) (a : RequestArgs α)
    (genId : String) : Except PubError (List (String × PyVal α)) :=
  match p._producer with
  | none => .error .notConnected
  | some _ => .ok (requestKwargs p a genId)

/-- An outbound call under observation: applied to a message it yields the
ordered list of labels of the layers that executed, outermost first.  This is
the probe instrumentation the spec's own testable property prescribes for
asserting middleware execution order. -/
def PublishCall (μ : Type) : Type :=
  μ → List String

/-- A probe middleware with label `label`: its `publish_scope` records the
label and delegates inward to the wrapped call. -/
def probe {μ : Type} (label : String) (c : PublishCall μ) : PublishCall μ :=
  fun m => label :: c m

/-- The composition loop shared by `publish` (lines 278-288) and `request`
(lines 350-359): `call = partial(m, call)` folded over the effective
middleware sequence, so each iterated middleware wraps the current call. -/
def composeCall {μ : Type} (mws : List (PublishCall μ → PublishCall μ))
    (base : PublishCall μ) : PublishCall μ :=
  mws.foldl (fun c m => m c) base

/-- The effective middleware sequence iterated by the loop:
`chain(self._middlewares[::-1], _extra_middlewares or (m(None).publish_scope
for m in self._broker_middlewares[::-1]))`.  `pubs` and `brokers` are the
publisher-level and broker-level tiers in registration order (`brokers`
already as the `publish_scope` of each instantiated middleware); `extras` is
the per-call override, falsy exactly when empty. -/
def effectiveMws {μ : Type} (pubs extras brokers : List (PublishCall μ → PublishCall μ)) :
    List (PublishCall μ → PublishCall μ) :=
  pubs.reverse ++ (if extras.isEmpty then brokers.reverse else extras)

/-- `return_input` from `faststream.utils.functions`: the identity
continuation seeding the inbound chain. -/
def return_input {γ : Type} (x : γ) : γ :=
  x

/-- The parsed message produced on the reply path: raw transport message,
decoded body (written by `parsed_msg._decoded_body = ...`) and source-type
tag (written by `parsed_msg._source_type = ...`). -/
structure ParsedMessage (ρ β : Type) where
  raw : ρ
  _decoded_body : Option β
  _source_type : SourceType
  deriving DecidableEq

/-- A broker middleware on the inbound path, as used by `request`
(lines 370-373): instantiated on the raw published message, its
`consume_scope` wraps the current continuation. -/
def ConsumeMw (ρ β : Type) : Type :=
  ρ → (ParsedMessage ρ β → ParsedMessage ρ β) → ParsedMessage ρ β → ParsedMessage ρ β

/-- The producer's parsing facilities used on the reply path
(`self._producer._parser` and `self._producer._decoder`, lines 375-376). -/
structure AioPikaFastProducer (ρ β : Type) where
  parserFun : ρ → ParsedMessage ρ β
  decoderFun : ParsedMessage ρ β → β

/-- The inbound continuation built inside the scoped block (lines 367-373):
starting from `return_input`, each broker middleware in reverse registration
order wraps the current continuation with its `consume_scope`. -/
def buildReturnMsg {ρ β : Type} (mws : List (ConsumeMw ρ β)) (published : ρ) :
    ParsedMessage ρ β → ParsedMessage ρ β :=
  mws.reverse.foldl (fun rm m => m published rm) return_input

/-- The body of the scoped block of `request` (lines 366-378): build the
inbound chain, parse the raw reply, set its decoded body, tag it Response,
and return the chain applied to it.  `some` marks the block returning; `none`
would mean falling through to the guard after it. -/
def replyPhaseBlock {ρ β : Type} (prod : AioPikaFastProducer ρ β)
    (mws : List (ConsumeMw ρ β)) (published : ρ) : Option (ParsedMessage ρ β) :=
  let return_msg := buildReturnMsg mws published
  let parsed0 := prod.parserFun published
  let parsed1 : ParsedMessage ρ β :=
    { parsed0 with _decoded_body := some (prod.decoderFun parsed0) }
  let parsed2 : ParsedMessage ρ β :=
    { parsed1 with _source_type := SourceType.Response }
  some (return_msg parsed2)

/-- The reply phase of `request` including the guard after the scoped block
(line 380): if the block exited without returning, an internal assertion
fires. -/
def requestReply {ρ β : Type} (prod : AioPikaFastProducer ρ β)
    (mws : List (ConsumeMw ρ β)) (published : ρ) :
    Except String (ParsedMessage ρ β) :=
  match replyPhaseBlock prod mws published with
  | some r => .ok r
  | none => .error "unreachable"

/-- The inbound chain written as a plain recursion in registration order:
the first-registered middleware wraps the rest. -/
def consumeChain {ρ β : Type} (mws : List (ConsumeMw ρ β)) (published : ρ) :
    ParsedMessage ρ β → ParsedMessage ρ β :=
  match mws with
  | [] => return_input
  | m :: rest => m published (consumeChain rest published)

/-- A heap of destination descriptors: publishers hold indices into it, so
descriptor sharing between publishers is explicit.  `deepcopy` allocates a
fresh entry. -/
abbrev QueueStore : Type :=
  List RabbitQueue

/-- A publisher viewed through its descriptor reference: its explicit routing
key and the index of its bound queue descriptor in the store. -/
structure PublisherRef where
  routing_key : String
  qref : Nat
  deriving DecidableEq

/-- The `routing` property (lines 174-177):
`self.routing_key or self.queue.routing`. -/
def routingIn (st : QueueStore) (p : PublisherRef) : String :=
  pyOrS p.routing_key (st.getD p.qref ⟨""⟩).routing

/-- `add_prefix` (lines 382-386): deep-copy the bound queue descriptor
(allocate a fresh store entry), prefix the copy's name, and rebind the
publisher to the copy; the original entry is untouched. -/
def addPrefixCopy (st : QueueStore) (p : PublisherRef) (pre : String) :
    QueueStore × PublisherRef :=
  let q := st.getD p.qref ⟨""⟩
  let new_q : RabbitQueue := { q with name := pre ++ q.name }
  (st ++ [new_q], { p with qref := st.length })

/-- `faststream.exceptions.SetupError`, raised by the stream-subscription
validator. -/
structure SetupError where
  msg : String
  deriving DecidableEq

/-- Python truthiness of an `Optional[str]`: `None` and `""` are falsy. -/
def strTruthy : Option String → Bool
  | none => false
  | some s => s != ""

/-- The Redis stream-subscription descriptor (`StreamSub`); the `name` field
is stored by the `NameRequired` superclass call, modelled from the spec
(it simply records the required stream name). -/
structure StreamSub where
  name : String
  polling_interval : Option Nat
  group : Option String
  consumer : Option String
  batch : Bool
  no_ack : Bool
  last_id : String
  maxlen : Option Nat
  max_records : Option Nat
  max_concurrent : Option Nat
  deriving DecidableEq

/-- `StreamSub.__init__` (stream_sub.py lines 24-60): errors when, in Python
truthiness, exactly one of `group` and `consumer` is set; warns (second
component `true`) when a group, a consumer and `no_ack` are all set; defaults
`last_id` to `"$"` only when it is `None`. -/
def mkStreamSub (stream : String) (polling_interval : Option Nat)
    (group consumer : Option String) (batch no_ack : Bool)
    (last_id : Option String) (maxlen max_records max_concurrent : Option Nat) :
    Except SetupError (StreamSub × Bool) :=
  if (strTruthy group && !strTruthy consumer) || (!strTruthy group && strTruthy consumer) then
    .error ⟨"You should specify group and consumer both"⟩
  else
    let warned := strTruthy group && strTruthy consumer && no_ack
    let lid := match last_id with
      | none => "$"
      | some s => s
    .ok ({ name := stream
           polling_interval := polling_interval
           group := group
           consumer := consumer
           batch := batch
           no_ack := no_ack
           last_id := lid
           maxlen := maxlen
           max_records := max_records
           max_concurrent := max_concurrent }, warned)

theorem optOr_none_right {α : Type} (a : Option α) : optOr a none = a := by
  cases a <;> rfl

theorem optOr_assoc {α : Type} (a b c : Option α) :
    optOr (optOr a b) c = optOr a (optOr b c) := by
  cases a <;> rfl

theorem dictGet_append {α : Type} (xs ys : List (String × α)) (k : String) :
    dictGet (xs ++ ys) k = optOr (dictGet ys k) (dictGet xs k) := by
  induction xs with
  | nil => simp [dictGet, optOr_none_right]
  | cons x xs ih => simp only [List.cons_append, dictGet, List.append_eq, ih, optOr_assoc]

theorem dictGet_map_snd {α γ : Type} (f : α → γ) (l : List (String × α)) (k : String) :
    dictGet (l.map (fun kv => (kv.1, f kv.2))) k = Option.map f (dictGet l k) := by
  induction l with
  | nil => rfl
  | cons x l ih =>
    simp only [List.map_cons, dictGet, ih]
    cases dictGet l k <;> by_cases h : x.1 = k <;> simp [h, optOr]

theorem dictGet_eq_none {α : Type} {l : List (String × α)} {k : String}
    (h : k ∉ l.map Prod.fst) : dictGet l k = none := by
  induction l with
  | nil => rfl
  | cons x l ih =>
    simp only [List.map_cons, List.mem_cons] at h
    push_neg at h
    rw [dictGet, ih h.2, if_neg (fun he => h.1 he.symm)]
    rfl

theorem optionsWF_dictGet_none {α : Type} {l : List (String × α)} {allowed : List String}
    (hwf : optionsWF l allowed) {k : String} (hk : k ∉ allowed) : dictGet l k = none :=
  dictGet_eq_none (fun hmem => hk (hwf k hmem))

theorem dictGet_publishKwargs_notOption {α : Type} (p : LogicPublisher α)
    (a : PublishArgs α) (genId : String) {k : String}
    (h1 : optionsWF p.message_kwargs publishOptionKeys)
    (h2 : optionsWF a.kwargs publishOptionKeys)
    (hk : k ∉ publishOptionKeys) :
    dictGet (publishKwargs p a genId) k = dictGet (publishKwargsFixed p a genId) k := by
  rw [publishKwargs, dictGet_append, dictGet_append, dictGet_map_snd, dictGet_map_snd,
    optionsWF_dictGet_none h1 hk, optionsWF_dictGet_none h2 hk]
  rfl

theorem dictGet_requestKwargs_notOption {α : Type} (p : LogicPublisher α)
    (a : RequestArgs α) (genId : String) {k : String}
    (h1 : optionsWF p.message_kwargs publishOptionKeys)
    (h2 : optionsWF a.kwargs requestOptionKeys)
    (hk : k ∉ publishOptionKeys) :
    dictGet (requestKwargs p a genId) k = dictGet (requestKwargsFixed p a genId) k := by
  have hk2 : k ∉ requestOptionKeys := fun hmem => hk (List.mem_append_left _ hmem)
  rw [requestKwargs, dictGet_append, dictGet_append, dictGet_map_snd, dictGet_map_snd,
    optionsWF_dictGet_none h1 hk, optionsWF_dictGet_none h2 hk2]
  rfl

theorem composeCall_append {μ : Type} (xs ys : List (PublishCall μ → PublishCall μ))
    (base : PublishCall μ) :
    composeCall (xs ++ ys) base = composeCall ys (composeCall xs base) := by
  simp [composeCall, List.foldl_append]

theorem probe_chain {μ : Type} (labels : List String) (c : PublishCall μ) (m : μ) :
    composeCall (labels.map probe) c m = labels.reverse ++ c m := by
  induction labels generalizing c with
  | nil => rfl
  | cons l ls ih =>
    show composeCall (ls.map probe) (probe l c) m = (l :: ls).reverse ++ c m
    rw [ih (probe l c)]
    simp [probe]

theorem buildReturnMsg_eq_consumeChain {ρ β : Type} (mws : List (ConsumeMw ρ β))
    (published : ρ) : buildReturnMsg mws published = consumeChain mws published := by
  unfold buildReturnMsg
  rw [List.foldl_reverse]
  induction mws with
  | nil => rfl
  | cons m rest ih => simp only [List.foldr_cons, consumeChain, ih]

theorem genCorId_ne_empty (n : Nat) : genCorId n ≠ "" := by
  intro h
  have h2 : (genCorId n).length = 0 := by rw [h]; rfl
  rw [genCorId, String.length_append] at h2
  have h4 : "cor-".length = 4 := rfl
  rw [h4] at h2
  omega

/-- C1 (counterexample): with publisher-level probe middlewares registered in
order [A, B] and no broker-level or extra middlewares, the composed chain
executes A, then B, then the base producer call -- not B first, as claimed. -/
theorem c1_last_registered_outermost_cex :
    composeCall (effectiveMws (["A", "B"].map probe) [] [])
        (fun _ : Unit => ["producer.publish"]) () = ["A", "B", "producer.publish"]
      ∧ composeCall (effectiveMws (["A", "B"].map probe) [] [])
        (fun _ : Unit => ["producer.publish"]) () ≠ ["B", "A", "producer.publish"] := by
  constructor
  · rfl
  · decide

/-- C1 (amended): for publisher-level middlewares registered in order [A, B]
(no broker-level or extra middlewares), the composed call chain executes A
first (outermost), then B, then the base producer call last (innermost): the
FIRST-registered middleware is outermost. -/
theorem c1_first_registered_outermost {μ : Type} (A B : String)
    (base : PublishCall μ) (m : μ) :
    composeCall (effectiveMws ([A, B].map probe) [] []) base m = A :: B :: base m := by
  rw [show effectiveMws ([A, B].map probe) [] [] = [B, A].map probe from rfl, probe_chain]
  rfl

/-- C6: a non-empty `_extra_middlewares` list fully replaces the broker-level
tier for that call (no broker publish scope appears in the executed chain)
while the publisher-level tier still applies; without the override the
broker-level tier applies as usual. -/
theorem c6_extra_middlewares_replace_broker_tier {μ : Type}
    (pubs brokers extras : List String) (base : PublishCall μ) (m : μ) :
    (extras ≠ [] →
      composeCall (effectiveMws (pubs.map probe) (extras.map probe) (brokers.map probe)) base m
        = extras.reverse ++ (pubs ++ base m))
    ∧ composeCall (effectiveMws (pubs.map probe) [] (brokers.map probe)) base m
        = brokers ++ (pubs ++ base m) := by
  constructor
  · intro hne
    cases extras with
    | nil => exact absurd rfl hne
    | cons e es =>
      show composeCall ((pubs.map probe).reverse ++ (e :: es).map probe) base m = _
      rw [composeCall_append, ← List.map_reverse, probe_chain, probe_chain]
      simp
  · show composeCall ((pubs.map probe).reverse ++ (brokers.map probe).reverse) base m = _
    rw [composeCall_append, ← List.map_reverse, ← List.map_reverse, probe_chain, probe_chain]
    simp

/-- C6 (witness): concrete instance with one publisher middleware, one broker
middleware and a one-element override list. -/
theorem c6_extra_middlewares_replace_broker_tier_witness :
    (["E"] ≠ ([] : List String))
    ∧ composeCall (effectiveMws (["P"].map probe) (["E"].map probe) (["M"].map probe))
        (fun _ : Unit => ["producer.publish"]) ()
        = ["E"].reverse ++ (["P"] ++ ["producer.publish"]) :=
  ⟨by decide,
   (c6_extra_middlewares_replace_broker_tier ["P"] ["M"] ["E"]
     (fun _ : Unit => ["producer.publish"]) ()).1 (by decide)⟩

/-- C5: when the producer's request operation yields a raw reply, `request`
returns that reply parsed by the producer's parser, with its decoded body set
by the producer's decoder and its source tag set to Response, passed through
the inbound consume-scope chain; the guard after the scoped block never
executes (the result is always `ok`, never the "unreachable" error). -/
theorem c5_reply_parsed_decoded_tagged {ρ β : Type} (prod : AioPikaFastProducer ρ β)
    (mws : List (ConsumeMw ρ β)) (published : ρ) :
    requestReply prod mws published
      = .ok (consumeChain mws published
          { raw := (prod.parserFun published).raw
            _decoded_body := some (prod.decoderFun (prod.parserFun published))
            _source_type := SourceType.Response })
    ∧ ∀ e, requestReply prod mws published ≠ .error e := by
  have h : requestReply prod mws published
      = .ok (consumeChain mws published
          { raw := (prod.parserFun published).raw
            _decoded_body := some (prod.decoderFun (prod.parserFun published))
            _source_type := SourceType.Response }) := by
    rw [requestReply, replyPhaseBlock]
    rw [buildReturnMsg_eq_consumeChain]
  exact ⟨h, fun e he => by rw [h] at he; cases he⟩

/-- C4 (counterexample): `setup` accepts an optional producer; a publisher on
which `setup` was called with `producer=None` still fails with NotConnected,
so "after setup, no call fails with NotConnected" is false as stated. -/
theorem c4_setup_without_producer_cex :
    ((LogicPublisher.make "rk" (⟨"q"⟩ : RabbitQueue) (⟨"ex"⟩ : RabbitExchange)
        ([] : List (String × String))).setup none (some "app") "vh").publish
      { queue := none, exchange := none, routing_key := "", correlation_id := none,
        message_id := none, timestamp := none, rpc := false, rpc_timeout := some 30,
        raise_timeout := false, kwargs := [] } "cid"
      = .error .notConnected := rfl

/-- C4 (amended): `publish` and `request` fail with NotConnected exactly while
the producer handle is absent: on a freshly constructed publisher, and after a
`setup` call that passed `producer=None`; after a `setup` call supplying a
producer, neither `publish` nor `request` fails with NotConnected. -/
theorem c4_not_connected_guard {α : Type} (rk : String) (q : RabbitQueue)
    (ex : RabbitExchange) (mk0 : List (String × α)) (p : LogicPublisher α)
    (prod : ProducerHandle) (aid : Option String) (vh : String)
    (a : PublishArgs α) (r : RequestArgs α) (g g2 : String) :
    (LogicPublisher.make rk q ex mk0).publish a g = .error .notConnected
    ∧ (LogicPublisher.make rk q ex mk0).request r g2 = .error .notConnected
    ∧ (p.setup none aid vh).publish a g = .error .notConnected
    ∧ (p.setup none aid vh).request r g2 = .error .notConnected
    ∧ (p.setup (some prod) aid vh).publish a g
        = .ok (publishKwargs (p.setup (some prod) aid vh) a g)
    ∧ (p.setup (some prod) aid vh).request r g2
        = .ok (requestKwargs (p.setup (some prod) aid vh) r g2) :=
  ⟨rfl, rfl, rfl, rfl, rfl, rfl⟩

/-- C8: `add_prefix("x.")` on a publisher whose bound descriptor (shared with
a second publisher) is named "orders" and whose explicit routing key is empty
rebinds the first publisher to a prefixed copy resolving routing "x.orders",
while the second publisher, still bound to the original descriptor, resolves
routing "orders". -/
theorem c8_copy_on_write (st : QueueStore) (p1 p2 : PublisherRef)
    (h : p1.qref < st.length) (hs : p2.qref = p1.qref)
    (hn : (st.getD p1.qref ⟨""⟩).name = "orders")
    (h1 : p1.routing_key = "") (h2 : p2.routing_key = "") :
    routingIn (addPrefixCopy st p1 "x.").1 (addPrefixCopy st p1 "x.").2 = "x.orders"
    ∧ routingIn (addPrefixCopy st p1 "x.").1 p2 = "orders" := by
  constructor
  · rw [routingIn, addPrefixCopy]
    simp only [h1, pyOrS, if_true]
    rw [List.getD_append_right _ _ _ _ (Nat.le_refl _), Nat.sub_self]
    show ("x." ++ (st.getD p1.qref ⟨""⟩).name : String) = "x.orders"
    rw [hn]
    decide
  · rw [routingIn, addPrefixCopy]
    simp only [h2, pyOrS, if_true]
    rw [List.getD_append _ _ _ _ (hs ▸ h)]
    rw [hs]
    exact hn

/-- C8 (witness): a one-descriptor store shared by two publishers. -/
theorem c8_copy_on_write_witness :
    (0 < ([⟨"orders"⟩] : QueueStore).length)
    ∧ routingIn (addPrefixCopy [⟨"orders"⟩] ⟨"", 0⟩ "x.").1
        (addPrefixCopy [⟨"orders"⟩] ⟨"", 0⟩ "x.").2 = "x.orders"
    ∧ routingIn (addPrefixCopy [⟨"orders"⟩] ⟨"", 0⟩ "x.").1 ⟨"", 0⟩ = "orders" := by
  refine ⟨by decide, ?_, ?_⟩
  · exact (c8_copy_on_write [⟨"orders"⟩] ⟨"", 0⟩ ⟨"", 0⟩ (by decide) rfl (by decide) rfl rfl).1
  · exact (c8_copy_on_write [⟨"orders"⟩] ⟨"", 0⟩ ⟨"", 0⟩ (by decide) rfl (by decide) rfl rfl).2

/-- C7: for any recognized request-scope option key, the value delivered to
the producer is the per-call value when supplied, else the stored default
(later layer wins), for both `publish` and `request`; the popped `reply_to`
default behaves the same way under the per-call override. -/
theorem c7_option_merge {α : Type} (p : LogicPublisher α) (a : PublishArgs α)
    (r : RequestArgs α) (gp gr : String) (k : String) (hk : k ∈ requestOptionKeys) :
    dictGet (publishKwargs p a gp) k
      = optOr ((dictGet a.kwargs k).map PyVal.opt) ((dictGet p.message_kwargs k).map PyVal.opt)
    ∧ dictGet (requestKwargs p r gr) k
      = optOr ((dictGet r.kwargs k).map PyVal.opt) ((dictGet p.message_kwargs k).map PyVal.opt)
    ∧ ("reply_to" ∉ p.message_kwargs.map Prod.fst →
        dictGet (publishKwargs p a gp) "reply_to"
          = optOr ((dictGet a.kwargs "reply_to").map PyVal.opt) (some (.oopt p.reply_to))) := by
  have hp : dictGet (publishKwargsFixed p a gp) k = none := by
    apply dictGet_eq_none
    rw [show (publishKwargsFixed p a gp).map Prod.fst
      = ["routing_key", "exchange", "app_id", "correlation_id", "message_id",
         "timestamp", "rpc", "rpc_timeout", "raise_timeout", "reply_to"] from rfl]
    fin_cases hk <;> decide
  have hr : dictGet (requestKwargsFixed p r gr) k = none := by
    apply dictGet_eq_none
    rw [show (requestKwargsFixed p r gr).map Prod.fst
      = ["routing_key", "exchange", "app_id", "correlation_id", "message_id",
         "timestamp"] from rfl]
    fin_cases hk <;> decide
  refine ⟨?_, ?_, ?_⟩
  · rw [publishKwargs, dictGet_append, dictGet_append, dictGet_map_snd, dictGet_map_snd,
      hp, optOr_none_right]
  · rw [requestKwargs, dictGet_append, dictGet_append, dictGet_map_snd, dictGet_map_snd,
      hr, optOr_none_right]
  · intro hrt
    rw [publishKwargs, dictGet_append, dictGet_append, dictGet_map_snd, dictGet_map_snd,
      dictGet_eq_none hrt]
    rw [show dictGet (publishKwargsFixed p a gp) "reply_to" = some (.oopt p.reply_to) from rfl]
    rfl

/-- C7 (witness): a publisher with stored defaults for `headers` and
`reply_to`, and a per-call `headers` override. -/
theorem c7_option_merge_witness :
    ("headers" ∈ requestOptionKeys)
    ∧ dictGet (publishKwargs
        (LogicPublisher.make "rk" (⟨"q"⟩ : RabbitQueue) (⟨"ex"⟩ : RabbitExchange)
          [("headers", "h"), ("reply_to", "rt")])
        { queue := none, exchange := none, routing_key := "", correlation_id := none,
          message_id := none, timestamp := none, rpc := false, rpc_timeout := some 30,
          raise_timeout := false, kwargs := [("headers", "h2")] } "cid") "headers"
      = optOr ((dictGet [("headers", "h2")] "headers").map PyVal.opt)
          ((dictGet (LogicPublisher.make "rk" (⟨"q"⟩ : RabbitQueue)
              (⟨"ex"⟩ : RabbitExchange)
              [("headers", "h"), ("reply_to", "rt")]).message_kwargs "headers").map PyVal.opt)
    ∧ ("reply_to" ∉ (LogicPublisher.make "rk" (⟨"q"⟩ : RabbitQueue)
        (⟨"ex"⟩ : RabbitExchange)
        [("headers", "h"), ("reply_to", "rt")]).message_kwargs.map Prod.fst) :=
  ⟨by decide,
   (c7_option_merge
     (LogicPublisher.make "rk" (⟨"q"⟩ : RabbitQueue) (⟨"ex"⟩ : RabbitExchange)
       [("headers", "h"), ("reply_to", "rt")])
     { queue := none, exchange := none, routing_key := "", correlation_id := none,
       message_id := none, timestamp := none, rpc := false, rpc_timeout := some 30,
       raise_timeout := false, kwargs := [("headers", "h2")] }
     { queue := none, exchange := none, routing_key := "", correlation_id := none,
       message_id := none, timestamp := none, kwargs := [] }
     "cid" "cid2" "headers" (by decide)).1,
   by decide⟩

/-- C2: the routing key in the kwargs handed to the producer, for both
`publish` and `request`, is the falsy-or resolution whose precedence is:
non-empty per-call routing key, then non-empty publisher routing key, then
the per-call queue override's derived routing, then the bound queue's derived
routing. -/
theorem c2_routing_precedence {α : Type} (p : LogicPublisher α) (a : PublishArgs α)
    (r : RequestArgs α) (gp gr : String)
    (h1 : optionsWF p.message_kwargs publishOptionKeys)
    (h2 : optionsWF a.kwargs publishOptionKeys)
    (h3 : optionsWF r.kwargs requestOptionKeys) :
    dictGet (publishKwargs p a gp) "routing_key"
      = some (.str (resolvedRoutingKey a.routing_key p.routing_key a.queue p.queue))
    ∧ dictGet (requestKwargs p r gr) "routing_key"
      = some (.str (resolvedRoutingKey r.routing_key p.routing_key r.queue p.queue))
    ∧ (∀ crk prk cq dq, crk ≠ "" → resolvedRoutingKey crk prk cq dq = crk)
    ∧ (∀ prk cq dq, prk ≠ "" → resolvedRoutingKey "" prk cq dq = prk)
    ∧ (∀ qr dq, queueTruthy qr = true →
        resolvedRoutingKey "" "" (some qr) dq = (RabbitQueue.validate qr).routing)
    ∧ (∀ dq, resolvedRoutingKey "" "" none dq = dq.routing) := by
  refine ⟨?_, ?_, ?_, ?_, ?_, ?_⟩
  · rw [dictGet_publishKwargs_notOption p a gp h1 h2 (by decide)]
    rfl
  · rw [dictGet_requestKwargs_notOption p r gr h1 h3 (by decide)]
    rfl
  · intro crk prk cq dq hne
    simp [resolvedRoutingKey, pyOrS, hne]
  · intro prk cq dq hne
    simp [resolvedRoutingKey, pyOrS, hne]
  · intro qr dq hq
    simp [resolvedRoutingKey, pyOrS, pyOrQ, hq]
  · intro dq
    rfl

/-- C2 (witness): per-call routing key "rk.call" overrides everything. -/
theorem c2_routing_precedence_witness :
    optionsWF ((LogicPublisher.make "rk.pub" (⟨"orders"⟩ : RabbitQueue)
        (⟨"ex"⟩ : RabbitExchange)
        ([("persist", "v")] : List (String × String))).message_kwargs) publishOptionKeys
    ∧ dictGet (publishKwargs
        (LogicPublisher.make "rk.pub" (⟨"orders"⟩ : RabbitQueue)
          (⟨"ex"⟩ : RabbitExchange) [("persist", "v")])
        { queue := none, exchange := none, routing_key := "rk.call",
          correlation_id := none, message_id := none, timestamp := none, rpc := false,
          rpc_timeout := some 30, raise_timeout := false, kwargs := [] } "cid") "routing_key"
      = some (.str (resolvedRoutingKey "rk.call" "rk.pub" none ⟨"orders"⟩)) :=
  ⟨by decide,
   (c2_routing_precedence
     (LogicPublisher.make "rk.pub" (⟨"orders"⟩ : RabbitQueue)
       (⟨"ex"⟩ : RabbitExchange) [("persist", "v")])
     { queue := none, exchange := none, routing_key := "rk.call",
       correlation_id := none, message_id := none, timestamp := none, rpc := false,
       rpc_timeout := some 30, raise_timeout := false, kwargs := [] }
     { queue := none, exchange := none, routing_key := "", correlation_id := none,
       message_id := none, timestamp := none, kwargs := [] }
     "cid" "cid2" (by decide) (by decide) (by decide)).1⟩

/-- C3: for both `publish` and `request` the correlation id delivered to the
producer is the falsy-or of the caller-supplied id and a freshly generated
one; it is non-empty in every case, equals the supplied id whenever a
non-empty one is supplied, and is the generated id when none is supplied. -/
theorem c3_correlation_id {α : Type} (p : LogicPublisher α) (a : PublishArgs α)
    (r : RequestArgs α) (n : Nat)
    (h1 : optionsWF p.message_kwargs publishOptionKeys)
    (h2 : optionsWF a.kwargs publishOptionKeys)
    (h3 : optionsWF r.kwargs requestOptionKeys) :
    dictGet (publishKwargs p a (genCorId n)) "correlation_id"
      = some (.str (pyOrOpt a.correlation_id (genCorId n)))
    ∧ dictGet (requestKwargs p r (genCorId n)) "correlation_id"
      = some (.str (pyOrOpt r.correlation_id (genCorId n)))
    ∧ (∀ cid : Option String, pyOrOpt cid (genCorId n) ≠ "")
    ∧ (∀ c : String, c ≠ "" → pyOrOpt (some c) (genCorId n) = c)
    ∧ pyOrOpt none (genCorId n) = genCorId n := by
  refine ⟨?_, ?_, ?_, ?_, rfl⟩
  · rw [dictGet_publishKwargs_notOption p a (genCorId n) h1 h2 (by decide)]
    rfl
  · rw [dictGet_requestKwargs_notOption p r (genCorId n) h1 h3 (by decide)]
    rfl
  · intro cid
    cases cid with
    | none => exact genCorId_ne_empty n
    | some s =>
      rw [pyOrOpt]
      split
      · exact genCorId_ne_empty n
      · assumption
  · intro c hc
    rw [pyOrOpt, if_neg hc]

/-- C3 (witness): supplied id "abc" is forwarded; it is non-empty. -/
theorem c3_correlation_id_witness :
    optionsWF (([("persist", "v")] : List (String × String))) publishOptionKeys
    ∧ dictGet (publishKwargs
        (LogicPublisher.make "rk" (⟨"q"⟩ : RabbitQueue) (⟨"ex"⟩ : RabbitExchange)
          ([] : List (String × String)))
        { queue := none, exchange := none, routing_key := "",
          correlation_id := some "abc", message_id := none, timestamp := none,
          rpc := false, rpc_timeout := some 30, raise_timeout := false,
          kwargs := [] } (genCorId 0)) "correlation_id"
      = some (.str (pyOrOpt (some "abc") (genCorId 0)))
    ∧ pyOrOpt (some "abc") (genCorId 0) = "abc" :=
  ⟨by decide,
   (c3_correlation_id
     (LogicPublisher.make "rk" (⟨"q"⟩ : RabbitQueue) (⟨"ex"⟩ : RabbitExchange)
       ([] : List (String × String)))
     { queue := none, exchange := none, routing_key := "",
       correlation_id := some "abc", message_id := none, timestamp := none,
       rpc := false, rpc_timeout := some 30, raise_timeout := false, kwargs := [] }
     { queue := none, exchange := none, routing_key := "", correlation_id := none,
       message_id := none, timestamp := none, kwargs := [] }
     0 (by decide) (by decide) (by decide)).1,
   (c3_correlation_id
     (LogicPublisher.make "rk" (⟨"q"⟩ : RabbitQueue) (⟨"ex"⟩ : RabbitExchange)
       ([] : List (String × String)))
     { queue := none, exchange := none, routing_key := "",
       correlation_id := some "abc", message_id := none, timestamp := none,
       rpc := false, rpc_timeout := some 30, raise_timeout := false, kwargs := [] }
     { queue := none, exchange := none, routing_key := "", correlation_id := none,
       message_id := none, timestamp := none, kwargs := [] }
     0 (by decide) (by decide) (by decide)).2.2.2.1 "abc" (by decide)⟩

/-- C10: an empty caller-supplied correlation id is replaced by the generated
id (same as when absent), and an empty per-call routing key falls through to
the publisher routing key and then the derived queue routing, in the kwargs
of both `publish` and `request`. -/
theorem c10_empty_strings_falsy {α : Type} (p : LogicPublisher α)
    (a : PublishArgs α) (r : RequestArgs α) (n : Nat)
    (h1 : optionsWF p.message_kwargs publishOptionKeys)
    (h2 : optionsWF a.kwargs publishOptionKeys)
    (h3 : optionsWF r.kwargs requestOptionKeys)
    (hca : a.correlation_id = some "") (hra : a.routing_key = "")
    (hcr : r.correlation_id = some "") (hrr : r.routing_key = "") :
    dictGet (publishKwargs p a (genCorId n)) "correlation_id"
      = some (.str (genCorId n))
    ∧ dictGet (requestKwargs p r (genCorId n)) "correlation_id"
      = some (.str (genCorId n))
    ∧ dictGet (publishKwargs p a (genCorId n)) "routing_key"
      = some (.str (pyOrS p.routing_key (RabbitQueue.validate (pyOrQ a.queue p.queue)).routing))
    ∧ dictGet (requestKwargs p r (genCorId n)) "routing_key"
      = some (.str (pyOrS p.routing_key (RabbitQueue.validate (pyOrQ r.queue p.queue)).routing))
    ∧ pyOrOpt (some "") (genCorId n) = pyOrOpt none (genCorId n) := by
  refine ⟨?_, ?_, ?_, ?_, rfl⟩
  · rw [dictGet_publishKwargs_notOption p a (genCorId n) h1 h2 (by decide)]
    rw [show dictGet (publishKwargsFixed p a (genCorId n)) "correlation_id"
      = some (.str (pyOrOpt a.correlation_id (genCorId n))) from rfl]
    rw [hca]
    rfl
  · rw [dictGet_requestKwargs_notOption p r (genCorId n) h1 h3 (by decide)]
    rw [show dictGet (requestKwargsFixed p r (genCorId n)) "correlation_id"
      = some (.str (pyOrOpt r.correlation_id (genCorId n))) from rfl]
    rw [hcr]
    rfl
  · rw [dictGet_publishKwargs_notOption p a (genCorId n) h1 h2 (by decide)]
    rw [show dictGet (publishKwargsFixed p a (genCorId n)) "routing_key"
      = some (.str (resolvedRoutingKey a.routing_key p.routing_key a.queue p.queue)) from rfl]
    rw [hra]
    rfl
  · rw [dictGet_requestKwargs_notOption p r (genCorId n) h1 h3 (by decide)]
    rw [show dictGet (requestKwargsFixed p r (genCorId n)) "routing_key"
      = some (.str (resolvedRoutingKey r.routing_key p.routing_key r.queue p.queue)) from rfl]
    rw [hrr]
    rfl

/-- C10 (witness): empty correlation id and routing key on a concrete call. -/
theorem c10_empty_strings_falsy_witness :
    dictGet (publishKwargs
        (LogicPublisher.make "rk.pub" (⟨"orders"⟩ : RabbitQueue)
          (⟨"ex"⟩ : RabbitExchange) ([] : List (String × String)))
        { queue := none, exchange := none, routing_key := "",
          correlation_id := some "", message_id := none, timestamp := none,
          rpc := false, rpc_timeout := some 30, raise_timeout := false,
          kwargs := [] } (genCorId 7)) "correlation_id"
      = some (.str (genCorId 7)) :=
  (c10_empty_strings_falsy
    (LogicPublisher.make "rk.pub" (⟨"orders"⟩ : RabbitQueue)
      (⟨"ex"⟩ : RabbitExchange) ([] : List (String × String)))
    { queue := none, exchange := none, routing_key := "",
      correlation_id := some "", message_id := none, timestamp := none,
      rpc := false, rpc_timeout := some 30, raise_timeout := false, kwargs := [] }
    { queue := none, exchange := none, routing_key := "", correlation_id := some "",
      message_id := none, timestamp := none, kwargs := [] }
    7 (by decide) (by decide) (by decide) rfl rfl rfl rfl).1

/-- C9 (counterexample): a set-but-empty `group` with `consumer` unset is
accepted (Python truthiness treats `""` as unset), contradicting "error
exactly when one of (group, consumer) is set and the other is not"; and with
both unset the last-seen id defaults to the marker `"$"`, not the literal
string "latest". -/
theorem c9_stream_sub_validator_cex :
    mkStreamSub "s" (some 100) (some "") none false false none none none none
      = .ok ({ name := "s", polling_interval := some 100, group := some "",
               consumer := none, batch := false, no_ack := false, last_id := "$",
               maxlen := none, max_records := none, max_concurrent := none }, false)
    ∧ mkStreamSub "s" (some 100) none none false false none none none none
      = .ok ({ name := "s", polling_interval := some 100, group := none,
               consumer := none, batch := false, no_ack := false, last_id := "$",
               maxlen := none, max_records := none, max_concurrent := none }, false)
    ∧ ("$" : String) ≠ "latest" :=
  ⟨rfl, rfl, by decide⟩

/-- C9 (amended): construction fails with the Setup error exactly when, under
Python truthiness (`None` and `""` are unset), exactly one of (group,
consumer) is set; otherwise it succeeds, the last-seen id defaulting to `"$"`
(the latest-entry marker) when it is `None`, and a non-fatal warning is
emitted exactly when group, consumer and `no_ack` are all set. -/
theorem c9_stream_sub_validator (stream : String) (pi : Option Nat)
    (group consumer : Option String) (batch no_ack : Bool)
    (last_id : Option String) (maxlen mr mc : Option Nat) :
    (strTruthy group ≠ strTruthy consumer →
      mkStreamSub stream pi group consumer batch no_ack last_id maxlen mr mc
        = .error ⟨"You should specify group and consumer both"⟩)
    ∧ (strTruthy group = strTruthy consumer →
      mkStreamSub stream pi group consumer batch no_ack last_id maxlen mr mc
        = .ok ({ name := stream, polling_interval := pi, group := group,
                 consumer := consumer, batch := batch, no_ack := no_ack,
                 last_id := last_id.getD "$", maxlen := maxlen,
                 max_records := mr, max_concurrent := mc },
               strTruthy group && strTruthy consumer && no_ack)) := by
  constructor
  · intro hne
    cases hg : strTruthy group <;> cases hc : strTruthy consumer
    · exact absurd (hg.trans hc.symm) hne
    · rw [mkStreamSub.eq_def, hg, hc]
      rfl
    · rw [mkStreamSub.eq_def, hg, hc]
      rfl
    · exact absurd (hg.trans hc.symm) hne
  · intro heq
    cases hg : strTruthy group <;> cases hc : strTruthy consumer
    · rw [mkStreamSub.eq_def, hg, hc]
      cases last_id <;> rfl
    · rw [hg, hc] at heq
      cases heq
    · rw [hg, hc] at heq
      cases heq
    · rw [mkStreamSub.eq_def, hg, hc]
      cases last_id <;> rfl

/-- C9 (witness): a truthy group with no consumer is rejected. -/
theorem c9_stream_sub_validator_witness :
    (strTruthy (some "g") ≠ strTruthy none)
    ∧ mkStreamSub "s" (some 100) (some "g") none false false none none none none
      = .error ⟨"You should specify group and consumer both"⟩ :=
  ⟨by decide,
   (c9_stream_sub_validator "s" (some 100) (some "g") none false false
     none none none none).1 (by decide)⟩
